import Mathlib

/-!
Verification of the SVG sanitization engine and the similarity-query
pipeline of the `logoer` repository (files `container/app/admin/sanitizer.py`,
`container/app/rag/query_generator.py`, `container/app/rag/query_service.py`,
`container/app/rag/chroma_client.py`).

The Python code is shallowly embedded: XML element trees become the
inductive type `XElem`, string scanning is done over `List Char`
(Python `str` semantics are modelled at the ASCII level: `str.strip`,
`str.lower`, `re` matching of the fixed patterns), exceptions become
`Except`, and the external collaborators (the `xml.etree` parser, the
serializer and the ChromaDB store) are universally quantified function
parameters.
-/

/-! ## Python string primitives (ASCII-level model) -/

/-- The characters Python `str.strip()` removes (ASCII whitespace). -/
def pyWs (c : Char) : Bool :=
  c = ' ' || c = '\t' || c = '\n' || c = '\r' || c = '\x0b' || c = '\x0c'

/-- Python `str.strip()`: drop leading and trailing whitespace. -/
def pyStrip (s : String) : String :=
  String.mk (((s.data.dropWhile pyWs).reverse.dropWhile pyWs).reverse)

/-- ASCII lower-casing of one character (Python `str.lower` on ASCII). -/
def lowerChar (c : Char) : Char :=
  if 65 ≤ c.toNat ∧ c.toNat ≤ 90 then Char.ofNat (c.toNat + 32) else c

/-- ASCII lower-casing of a string. -/
def lowerStr (s : String) : String := String.mk (s.data.map lowerChar)

/-- The segment of a character list after the last `'}'` (whole list when
`'}'` does not occur): Python `tag.split("}")[-1] if "}" in tag else tag`. -/
def lastSegAux (seg : List Char) : List Char → List Char
  | [] => seg.reverse
  | c :: rest => if c = '}' then lastSegAux [] rest else lastSegAux (c :: seg) rest

/-- Strip an XML namespace placed in braces before a tag or attribute name. -/
def stripNs (s : String) : String := String.mk (lastSegAux [] s.data)

/-- Whether `pat` occurs as a contiguous sublist (Python `in` on strings). -/
def listContains (pat : List Char) : List Char → Bool
  | [] => pat.isEmpty
  | c :: cs => pat.isPrefixOf (c :: cs) || listContains pat cs

/-- Python `pat in s` substring test. -/
def containsSub (s pat : String) : Bool := listContains pat.data s.data

/-- Python `s.startswith(pre)`. -/
def strStarts (s pre : String) : Bool := pre.data.isPrefixOf s.data

/-- Replace the first occurrence of `pat` by `rep` (Python `replace(a, b, 1)`). -/
def replaceFirstL (pat rep : List Char) : List Char → List Char
  | [] => []
  | c :: cs =>
    if pat.isPrefixOf (c :: cs) then rep ++ (c :: cs).drop pat.length
    else c :: replaceFirstL pat rep cs

/-- Python `sep.join(parts)`. -/
def joinSep (sep : String) : List String → String
  | [] => ""
  | [x] => x
  | x :: y :: rest => x ++ sep ++ joinSep sep (y :: rest)

/-! ## XML element trees -/

/-- An `xml.etree.ElementTree.Element`: tag, attribute pairs (in document
order), text content (`None` and `""` both modelled as `""`, which is how
the sanitizer distinguishes them: not at all) and child elements. -/
inductive XElem : Type where
  | mk : String → List (String × String) → String → List XElem → XElem

def XElem.tag : XElem → String
  | .mk t _ _ _ => t

def XElem.attribs : XElem → List (String × String)
  | .mk _ a _ _ => a

def XElem.text : XElem → String
  | .mk _ _ t _ => t

def XElem.children : XElem → List XElem
  | .mk _ _ _ c => c

/-- Structural induction for `XElem` (children are reached through `List`). -/
def xelemInd (P : XElem → Prop)
    (step : ∀ tag attrs text cs, (∀ c ∈ cs, P c) → P (XElem.mk tag attrs text cs)) :
    ∀ t, P t
  | .mk tag attrs text cs => step tag attrs text cs (fun c _hc => xelemInd P step c)
termination_by t => sizeOf t
decreasing_by
  have := List.sizeOf_lt_of_mem _hc
  simp only [XElem.mk.sizeOf_spec]
  omega

/-! ## The sanitizer's fixed tables (sanitizer.py lines 19-75, verbatim) -/

/-- `ALLOWED_ELEMENTS`, exactly as in the source (note the mixed-case
entries, which the lower-cased membership test can never match). -/
def ALLOWED_ELEMENTS : List String :=
  ["svg", "g", "path", "rect", "circle", "ellipse", "line", "polyline",
   "polygon", "text", "tspan", "defs", "linearGradient", "radialGradient",
   "stop", "clipPath", "mask", "use", "symbol", "title", "desc", "metadata",
   "style", "font", "font-face", "glyph", "missing-glyph"]

/-- `DANGEROUS_ATTRIBUTES`. -/
def DANGEROUS_ATTRIBUTES : List String :=
  ["onload", "onerror", "onclick", "onmouseover", "onmouseout",
   "onmousedown", "onmouseup", "onfocus", "onblur", "onkeydown", "onkeyup",
   "onkeypress", "onchange", "onsubmit", "onreset", "onselect", "onabort"]

/-- `DANGEROUS_PATTERNS`: each is searched case-insensitively as a
substring of an attribute value. -/
def DANGEROUS_PATTERNS : List String := ["javascript:", "data:", "vbscript:"]

/-- The child-removal test of `_sanitize_element`:
`child_tag.lower() not in ALLOWED_ELEMENTS`, negated. -/
def childAllowed (e : XElem) : Bool :=
  ALLOWED_ELEMENTS.contains (lowerStr (stripNs e.tag))

/-- Is the (namespace-stripped, lower-cased) attribute name deny-listed? -/
def dangerousAttrName (a : String) : Bool :=
  DANGEROUS_ATTRIBUTES.contains (lowerStr (stripNs a))

/-- Does the value contain one of the dangerous URI-scheme patterns
(case-insensitive substring search, `re.IGNORECASE`)? -/
def dangerousValue (v : String) : Bool :=
  DANGEROUS_PATTERNS.any (fun p => containsSub (lowerStr v) p)

/-- An attribute pair survives `_sanitize_element`'s attribute loop. -/
def keepAttr (p : String × String) : Bool :=
  !dangerousAttrName p.1 && !dangerousValue p.2

/-! ## CSS sanitization (`_sanitize_css`, sanitizer.py lines 173-199)

Python `re.sub` with the two fixed patterns is modelled as a left-to-right
scan over the character list: at each position the pattern is tried; a
match emits its replacement and scanning resumes after the match (both
patterns only ever match at least one character). -/

/-- Case-insensitive literal match: consume `pat` (given lower-case) from
the front of the input, returning the rest. -/
def dropCiLit : List Char → List Char → Option (List Char)
  | [], cs => some cs
  | _ :: _, [] => none
  | p :: ps, c :: cs => if lowerChar c = p then dropCiLit ps cs else none

/-- Consume a (possibly empty) run of whitespace: the regex `\s*`. -/
def dropWsRun : List Char → List Char
  | [] => []
  | c :: cs => if pyWs c then dropWsRun cs else c :: cs

/-- Split at the first `')'`: the regex `([^)]*)\)`. Returns the content
before the parenthesis and the rest after it, or `none` when no `')'`
occurs. -/
def splitParen : List Char → Option (List Char × List Char)
  | [] => none
  | c :: cs =>
    if c = ')' then some ([], cs)
    else (splitParen cs).map (fun pr => (c :: pr.1, pr.2))

/-- Try `expression\s*\([^)]*\)` (IGNORECASE) at the head of the input;
on success return the rest of the input after the match. -/
def matchExpressionAt (cs : List Char) : Option (List Char) :=
  match dropCiLit "expression".data cs with
  | none => none
  | some r1 =>
    match dropWsRun r1 with
    | '(' :: r2 =>
      match splitParen r2 with
      | some pr => some pr.2
      | none => none
    | _ => none

/-- The scan of `re.sub(r"expression\s*\([^)]*\)", "", css)`; the fuel is
the input length, enough because every match consumes at least one
character. -/
def removeExpressionsAux : Nat → List Char → List Char
  | 0, cs => cs
  | _ + 1, [] => []
  | fuel + 1, c :: cs =>
    match matchExpressionAt (c :: cs) with
    | some rest => removeExpressionsAux fuel rest
    | none => c :: removeExpressionsAux fuel cs

def removeExpressions (cs : List Char) : List Char :=
  removeExpressionsAux cs.length cs

/-- Try `url\s*\(\s*([^)]*)\s*\)` (IGNORECASE) at the head of the input;
on success return the captured group and the rest after the match.
(The leading `\s*` inside the parentheses strips whitespace off the
group; the trailing `\s*` can only match empty, `[^)]*` being greedy.) -/
def matchUrlAt (cs : List Char) : Option (List Char × List Char) :=
  match dropCiLit "url".data cs with
  | none => none
  | some r1 =>
    match dropWsRun r1 with
    | '(' :: r2 =>
      match splitParen (dropWsRun r2) with
      | some pr => some pr
      | none => none
    | _ => none

/-- The replacement callback `sanitize_url`: a matched `url(...)` is
deleted when its argument contains a dangerous pattern, else kept. -/
def cssUrlDangerous (grp : List Char) : Bool := dangerousValue (String.mk grp)

/-- The scan of `re.sub(r"url\s*\(\s*([^)]*)\s*\)", sanitize_url, css)`. -/
def removeUrlsAux : Nat → List Char → List Char
  | 0, cs => cs
  | _ + 1, [] => []
  | fuel + 1, c :: cs =>
    match matchUrlAt (c :: cs) with
    | some pr =>
      let matched := (c :: cs).take ((c :: cs).length - pr.2.length)
      (if cssUrlDangerous pr.1 then [] else matched) ++ removeUrlsAux fuel pr.2
    | none => c :: removeUrlsAux fuel cs

def removeUrls (cs : List Char) : List Char :=
  removeUrlsAux cs.length cs

/-- `_sanitize_css`: the `expression(...)` pass, then the `url(...)` pass. -/
def sanitizeCss (css : String) : String :=
  String.mk (removeUrls (removeExpressions css.data))

/-! ## The element sanitizer (`_sanitize_element`, sanitizer.py 129-170) -/

mutual

/-- `_sanitize_element`: the in-place mutation is modelled functionally.
Children whose (namespace-stripped, lower-cased) tag is not allow-listed
are dropped with their whole subtree, without recursing into them; kept
children are sanitized recursively; deny-listed or dangerous-valued
attributes are deleted; the text of a `style` element is CSS-sanitized. -/
def sanitizeElement : XElem → XElem
  | .mk tag attrs text children =>
    XElem.mk tag (attrs.filter keepAttr)
      (if lowerStr (stripNs tag) = "style" ∧ text ≠ "" then sanitizeCss text else text)
      (sanitizeChildren children)

/-- The child loop of `_sanitize_element`: disallowed children are removed
(not recursed into), allowed children are sanitized. -/
def sanitizeChildren : List XElem → List XElem
  | [] => []
  | c :: cs =>
    if childAllowed c then sanitizeElement c :: sanitizeChildren cs
    else sanitizeChildren cs

end

/-! ## `sanitize_svg` (sanitizer.py 78-126) -/

def SVG_XMLNS_DECL : String := "xmlns=\"http://www.w3.org/2000/svg\""

/-- `_normalize_namespaces`: inject the SVG namespace declaration into the
first `<svg` when it is absent from the content. -/
def normalize_namespaces (content : String) : String :=
  if containsSub content SVG_XMLNS_DECL then content
  else String.mk (replaceFirstL "<svg".data ("<svg " ++ SVG_XMLNS_DECL).data content.data)

def XML_DECL : String := "<?xml version=\"1.0\" encoding=\"UTF-8\"?>\n"

/-- `sanitize_svg`. The `xml.etree` parser and serializer are external
collaborators, passed as functions: `parse` returns the root element or a
`ParseError` message, `ser` is `ET.tostring(·, encoding="unicode")`.
`Except.error` models raising `SVGSanitizationError`. -/
def sanitize_svg (parse : String → Except String XElem) (ser : XElem → String)
    (svg_content : String) : Except String String :=
  if pyStrip svg_content = "" then .error "Empty SVG content"
  else
    let content := pyStrip svg_content
    if !strStarts content "<svg" && !strStarts content "<?xml" then
      .error "Content does not appear to be SVG"
    else
      match parse (normalize_namespaces content) with
      | .error e => .error ("Failed to parse SVG: " ++ e)
      | .ok root =>
        let result := ser (sanitizeElement root)
        .ok (if strStarts (pyStrip svg_content) "<?xml" then XML_DECL ++ result else result)

/-! ## Paths into element trees (used to state where elements occur) -/

/-- The element reached from `t` by descending through the given child
indices; `some` exactly when the path exists in the tree. -/
def getPath : XElem → List Nat → Option XElem
  | t, [] => some t
  | t, i :: p =>
    match t.children.get? i with
    | some c => getPath c p
    | none => none

/-- Every element reached along a nonempty prefix of `q` (that is, every
non-root element on the path, the endpoint included) has an allow-listed
tag. This is how "not inside a removed subtree" is expressed. -/
def pathOk (t : XElem) (q : List Nat) : Prop :=
  ∀ q' e', q' ≠ [] → q' <+: q → getPath t q' = some e' → childAllowed e' = true

/-! ## `validate_svg_structure` (sanitizer.py 202-243) -/

mutual

/-- `sum(1 for _ in root.iter())`: the number of elements in the subtree,
the root included. -/
def countElements : XElem → Nat
  | .mk _ _ _ cs => 1 + countElementsList cs

def countElementsList : List XElem → Nat
  | [] => 0
  | c :: cs => countElements c + countElementsList cs

end

/-- Python `key in element.attrib` (exact, case-sensitive key match). -/
def hasAttr (e : XElem) (k : String) : Bool := e.attribs.any (fun p => p.1 == k)

structure SVGValidation where
  valid : Bool
  has_viewbox : Bool
  has_dimensions : Bool
  element_count : Nat
  errors : List String
deriving DecidableEq, Repr

/-- `validate_svg_structure`: never raises; a parse failure or a non-`svg`
root is reported in `errors` with all counts at their defaults. -/
def validate_svg_structure (parse : String → Except String XElem)
    (svg_content : String) : SVGValidation :=
  match parse svg_content with
  | .error e => ⟨false, false, false, 0, ["Parse error: " ++ e]⟩
  | .ok root =>
    if lowerStr (stripNs root.tag) ≠ "svg" then
      ⟨false, false, false, 0, ["Root element is not <svg>"]⟩
    else
      ⟨true, hasAttr root "viewBox",
        hasAttr root "width" && hasAttr root "height",
        countElements root, []⟩

/-! ## Query generator tables (query_generator.py 12-42, verbatim) -/

def THEME_DESCRIPTIONS : List (String × String) :=
  [("modern", "clean, contemporary, sleek design with geometric precision"),
   ("minimal", "simple, understated, using negative space and clean lines"),
   ("bold", "strong, impactful, high contrast with commanding presence"),
   ("elegant", "sophisticated, refined, graceful with premium feel"),
   ("playful", "fun, energetic, vibrant with friendly personality"),
   ("tech", "digital, futuristic, innovative with technical aesthetic"),
   ("vintage", "retro, classic, nostalgic with timeless appeal"),
   ("organic", "natural, flowing, earthy with organic curves")]

def TYPE_DESCRIPTIONS : List (String × String) :=
  [("wordmark", "text-based logo featuring the brand name in stylized typography"),
   ("lettermark", "monogram or initials-based logo using abbreviated letters"),
   ("pictorial", "icon or symbol-based logo representing the brand visually"),
   ("abstract", "geometric or abstract shape logo with symbolic meaning"),
   ("mascot", "character or mascot-based logo with personality"),
   ("combination", "combined text and symbol logo with integrated elements"),
   ("emblem", "badge or seal-style logo with enclosed design")]

def SHAPE_DESCRIPTIONS : List (String × String) :=
  [("circle", "circular, rounded, enclosed in a perfect circle"),
   ("hexagon", "hexagonal, six-sided geometric shape"),
   ("triangle", "triangular, three-pointed geometric form"),
   ("diamond", "diamond-shaped, rotated square form"),
   ("star", "star-shaped, pointed radiating design"),
   ("shield", "shield-shaped, protective badge form")]

/-- Python dict lookup on a fixed literal table. -/
def lookupTbl (tbl : List (String × String)) (k : String) : Option String :=
  (tbl.find? (fun p => p.1 == k)).map (fun p => p.2)

/-- Python truthiness of an `Optional[str]`: `None` and `""` are falsy. -/
def optTruthy : Option String → Bool
  | none => false
  | some s => s ≠ ""

/-! ## Color describer (`_describe_color` / `_hex_to_description`,
query_generator.py 119-207) -/

def COLOR_NAMES : List (String × String) :=
  [("#000000", "black"), ("#ffffff", "white"), ("#ff0000", "red"),
   ("#00ff00", "green"), ("#0000ff", "blue"), ("#ffff00", "yellow"),
   ("#ff00ff", "magenta"), ("#00ffff", "cyan"), ("#0f172a", "dark navy"),
   ("#3b82f6", "bright blue"), ("#10b981", "emerald green"),
   ("#f59e0b", "amber orange"), ("#ef4444", "red"), ("#8b5cf6", "purple"),
   ("#ec4899", "pink"), ("#6b7280", "gray")]

/-- The value of an ASCII hexadecimal digit. -/
def hexDigitVal? (c : Char) : Option Nat :=
  if '0' ≤ c ∧ c ≤ '9' then some (c.toNat - 48)
  else if 'a' ≤ c ∧ c ≤ 'f' then some (c.toNat - 87)
  else if 'A' ≤ c ∧ c ≤ 'F' then some (c.toNat - 55)
  else none

/-- Python `int(s, 16)` on a two-character string (the only shape the code
ever passes): two hex digits; or one hex digit padded by one whitespace
character (`int` strips whitespace); or a sign followed by one hex digit.
Anything else raises `ValueError` (`none`). ASCII-level model. -/
def pyIntHex2 (c1 c2 : Char) : Option Int :=
  match hexDigitVal? c1, hexDigitVal? c2 with
  | some v1, some v2 => some (16 * (v1 : Int) + (v2 : Int))
  | some v1, none => if pyWs c2 then some (v1 : Int) else none
  | none, some v2 =>
    if pyWs c1 then some (v2 : Int)
    else if c1 = '+' then some (v2 : Int)
    else if c1 = '-' then some (-(v2 : Int))
    else none
  | none, none => none

/-- The body of `_hex_to_description` after decoding, with the Python
float comparisons replaced by *exact* integer comparisons: for channel
values decoded by `int(·, 16)` (magnitude at most 255) the doubles
`(299*r + 587*g + 114*b)/1000`, `r*0.5` and `r*0.3` compare with `85`,
`170`, `g` and `b` exactly as the rationals do, so `x/1000 < 85` becomes
`x < 85000`, `g > r*0.5` becomes `2*g > r` and `b > r*0.3` becomes
`10*b > 3*r`. -/
def hexDescription (r g b : Int) : String :=
  let brightnessM := 299 * r + 587 * g + 114 * b
  let brightness_term :=
    if brightnessM < 85000 then "dark"
    else if brightnessM > 170000 then "light" else ""
  if max r (max g b) = 0 then "black"
  else if r = g ∧ g = b then
    (if brightness_term ≠ "" then brightness_term ++ " gray" else "gray")
  else
    let hue :=
      if r ≥ g ∧ r ≥ b then
        (if g > b then (if 2 * g > r then "orange" else "red")
         else (if 10 * b > 3 * r then "pink" else "red"))
      else if g ≥ r ∧ g ≥ b then
        (if r > b then (if 2 * r > g then "yellow-green" else "green")
         else (if 10 * b > 3 * g then "teal" else "green"))
      else
        (if r > g then (if 10 * r > 3 * b then "purple" else "blue")
         else (if 10 * g > 3 * b then "cyan" else "blue"))
    if brightness_term = "" then hue else brightness_term ++ " " ++ hue

/-- The decode skeleton of `_hex_to_description`: decode `hex_color[1:3]`,
`[3:5]`, `[5:7]` with `int(·, 16)` and describe the channels with `f`; a
`ValueError` returns the input unchanged. Only ever called on strings of
length 7 starting with `#`. -/
def hexBranch (f : Int → Int → Int → String) (hex_color : String) : String :=
  match hex_color.data with
  | [_, c1, c2, c3, c4, c5, c6] =>
    match pyIntHex2 c1 c2, pyIntHex2 c3 c4, pyIntHex2 c5 c6 with
    | some r, some g, some b => f r g b
    | _, _, _ => hex_color
  | _ => hex_color

/-- `_hex_to_description`. -/
def hex_to_description (hex_color : String) : String :=
  hexBranch hexDescription hex_color

/-- `_describe_color`. -/
def describe_color (color : String) : String :=
  match lookupTbl COLOR_NAMES (lowerStr color) with
  | some n => n
  | none =>
    if strStarts color "#" && color.length = 7 then hex_to_description color
    else color

/-! ## `config_to_query` (query_generator.py 45-116)

Each `parts.append(...)` site of the Python function becomes one step
appending to the accumulated list. -/

/-- Step 1: `if description: parts.append(description)`. -/
def appendDescription (description : Option String) (parts : List String) : List String :=
  match description with
  | some d => if d ≠ "" then parts ++ [d] else parts
  | none => parts

/-- Step 2: the logo-type phrase (table hit, else `"<type> style logo"`). -/
def appendLogoType (logo_type : Option String) (parts : List String) : List String :=
  match logo_type with
  | some lt =>
    if lt ≠ "" then
      match lookupTbl TYPE_DESCRIPTIONS lt with
      | some d => parts ++ [d]
      | none => parts ++ [lt ++ " style logo"]
    else parts
  | none => parts

/-- Step 3: the theme phrase (table hit, else `"<theme> aesthetic"`). -/
def appendTheme (theme : Option String) (parts : List String) : List String :=
  match theme with
  | some th =>
    if th ≠ "" then
      match lookupTbl THEME_DESCRIPTIONS th with
      | some d => parts ++ [d]
      | none => parts ++ [th ++ " aesthetic"]
    else parts
  | none => parts

/-- Step 4: the shape phrase (table hit, else `"<shape> shape"`). -/
def appendShape (shape : Option String) (parts : List String) : List String :=
  match shape with
  | some sh =>
    if sh ≠ "" then
      match lookupTbl SHAPE_DESCRIPTIONS sh with
      | some d => parts ++ [d]
      | none => parts ++ [sh ++ " shape"]
    else parts
  | none => parts

/-- The `colors` list: `"primary color <described>"` and/or
`"accent color <described>"`. -/
def colorsList (primary_color accent_color : Option String) : List String :=
  (match primary_color with
   | some pc => if pc ≠ "" then ["primary color " ++ describe_color pc] else []
   | none => []) ++
  (match accent_color with
   | some ac => if ac ≠ "" then ["accent color " ++ describe_color ac] else []
   | none => [])

/-- Step 5: `if colors: parts.append(", ".join(colors))`. -/
def appendColors (primary_color accent_color : Option String)
    (parts : List String) : List String :=
  let colors := colorsList primary_color accent_color
  if colors ≠ [] then parts ++ [joinSep ", " colors] else parts

/-- Step 6: the text phrase, only for wordmark/lettermark/combination. -/
def appendText (text logo_type : Option String) (parts : List String) : List String :=
  if optTruthy text &&
      (logo_type == some "wordmark" || logo_type == some "lettermark" ||
       logo_type == some "combination") then
    parts ++ ["featuring text '" ++ text.getD "" ++ "'"]
  else parts

/-- Step 7: `if industry: parts.append(f"suitable for {industry} industry")`. -/
def appendIndustry (industry : Option String) (parts : List String) : List String :=
  match industry with
  | some ind => if ind ≠ "" then parts ++ ["suitable for " ++ ind ++ " industry"] else parts
  | none => parts

/-- The final join: the fallback for an empty list, `" with "` between the
first three phrases, the remainder appended with `". "`. -/
def joinParts (parts : List String) : String :=
  if parts = [] then "professional logo design"
  else
    joinSep " with " (parts.take 3) ++
      (if parts.length > 3 then ". " ++ joinSep ". " (parts.drop 3) else "")

/-- `config_to_query`. -/
def config_to_query (logo_type theme shape primary_color accent_color
    text description industry : Option String) : String :=
  joinParts
    (appendIndustry industry
      (appendText text logo_type
        (appendColors primary_color accent_color
          (appendShape shape
            (appendTheme theme
              (appendLogoType logo_type
                (appendDescription description [])))))))

/-! ## `generate_filter_from_config` (query_generator.py 210-240) -/

/-- A ChromaDB `where` clause: equality conditions and conjunctions. -/
inductive ChromaFilter : Type where
  | eqCond (field : String) (value : String)
  | andCond (conds : List ChromaFilter)

def generate_filter_from_config (logo_type theme shape : Option String) :
    Option ChromaFilter :=
  let conditions :=
    (match logo_type with
     | some lt => if lt ≠ "" then [ChromaFilter.eqCond "logo_type" lt] else []
     | none => []) ++
    (match theme with
     | some th => if th ≠ "" then [ChromaFilter.eqCond "theme" th] else []
     | none => []) ++
    (match shape with
     | some sh => if sh ≠ "" then [ChromaFilter.eqCond "shape" sh] else []
     | none => [])
  match conditions with
  | [] => none
  | [c] => some c
  | cs => some (ChromaFilter.andCond cs)

/-! ## RAG query service (query_service.py, chroma_client.py) -/

structure RAGConfig where
  api_token : String
  tenant : String
  database : String
  collection_name : String

structure LogoMetadata where
  logo_id : String
  name : Option String
  description : String
  logo_type : String
  theme : Option String
  shape : Option String
  primary_color : Option String
  accent_color : Option String
  text : Option String
  svg_url : Option String
  created_at : Option String
deriving DecidableEq

/-- `SimilarLogo`; the float score is modelled as a rational. -/
structure SimilarLogo where
  id : String
  score : ℚ
  metadata : LogoMetadata
  svg_url : Option String
deriving DecidableEq

structure RAGQueryRequest where
  query : Option String
  logo_type : Option String
  theme : Option String
  shape : Option String
  primary_color : Option String
  accent_color : Option String
  text : Option String
  n_results : Nat

structure RAGQueryResponse where
  success : Bool
  results : List SimilarLogo
  query_used : Option String
  degraded : Bool
  error : Option String
deriving DecidableEq

/-- `is_rag_configured`: all three credential strings non-empty. -/
def is_rag_configured (cfg : RAGConfig) : Bool :=
  cfg.api_token ≠ "" && cfg.tenant ≠ "" && cfg.database ≠ ""

/-- `score = 1 / (1 + distance)` (chroma_client.py line 158). -/
def distanceToScore (d : ℚ) : ℚ := 1 / (1 + d)

/-- The result loop of `ChromaLogoClient.query_by_text` (lines 153-169):
the store hands back `(id, metadata, distance)` rows; each becomes a
`SimilarLogo` scored by `distanceToScore`. -/
def query_by_text_results (rows : List (String × LogoMetadata × ℚ)) : List SimilarLogo :=
  rows.map (fun r =>
    { id := r.1, score := distanceToScore r.2.2, metadata := r.2.1,
      svg_url := r.2.1.svg_url })

/-- The query text `find_similar_logos` sends to the store: the caller's
free text when truthy, else the query generated from the request's facets
(description and industry are not passed). -/
def queryTextOf (req : RAGQueryRequest) : String :=
  match req.query with
  | some q =>
    if q ≠ "" then q
    else config_to_query req.logo_type req.theme req.shape req.primary_color
      req.accent_color req.text none none
  | none => config_to_query req.logo_type req.theme req.shape req.primary_color
      req.accent_color req.text none none

/-- `find_similar_logos` (query_service.py 57-128). The ChromaDB store is
the external collaborator: `store` either returns result rows or raises,
and the only statement inside the `try` that can raise is the store
access. -/
def find_similar_logos (cfg : RAGConfig)
    (store : String → Nat → Option ChromaFilter → Except String (List SimilarLogo))
    (req : RAGQueryRequest) : RAGQueryResponse :=
  if !is_rag_configured cfg then
    { success := true, results := [], query_used := none, degraded := true,
      error := some "RAG not configured - ChromaDB credentials missing" }
  else
    let query_text := queryTextOf req
    let where_filter := generate_filter_from_config req.logo_type req.theme req.shape
    match store query_text req.n_results where_filter with
    | .ok results =>
      { success := true, results := results, query_used := some query_text,
        degraded := false, error := none }
    | .error e =>
      { success := true, results := [], query_used := none, degraded := true,
        error := some ("RAG query failed: " ++ e) }

/-! ## Spec-side definitions

These two groups of definitions are written from the specification's /
claims' words rather than from the source, for the refinement-style
claims about `config_to_query` and `_describe_color`. -/

/-- Spec §4.3: the ordered phrase list, steps 1-7. -/
def specPhrases (logo_type theme shape primary_color accent_color
    text description industry : Option String) : List String :=
  (if optTruthy description then [description.getD ""] else []) ++
  (if optTruthy logo_type then
    [match lookupTbl TYPE_DESCRIPTIONS (logo_type.getD "") with
     | some d => d
     | none => logo_type.getD "" ++ " style logo"]
  else []) ++
  (if optTruthy theme then
    [match lookupTbl THEME_DESCRIPTIONS (theme.getD "") with
     | some d => d
     | none => theme.getD "" ++ " aesthetic"]
  else []) ++
  (if optTruthy shape then
    [match lookupTbl SHAPE_DESCRIPTIONS (shape.getD "") with
     | some d => d
     | none => shape.getD "" ++ " shape"]
  else []) ++
  (let colorPhrases :=
    (if optTruthy primary_color then
      ["primary color " ++ describe_color (primary_color.getD "")] else []) ++
    (if optTruthy accent_color then
      ["accent color " ++ describe_color (accent_color.getD "")] else [])
   if colorPhrases ≠ [] then [joinSep ", " colorPhrases] else []) ++
  (if optTruthy text ∧ (logo_type = some "wordmark" ∨ logo_type = some "lettermark" ∨
      logo_type = some "combination") then
    ["featuring text '" ++ text.getD "" ++ "'"]
  else []) ++
  (if optTruthy industry then ["suitable for " ++ industry.getD "" ++ " industry"] else [])

/-- Spec §4.3, last paragraph: the joining rule. -/
def specJoin (phrases : List String) : String :=
  if phrases.isEmpty then "professional logo design"
  else
    joinSep " with " (phrases.take 3) ++
      (if 3 < phrases.length then ". " ++ joinSep ". " (phrases.drop 3) else "")

/-- Spec §4.4 step 2, with the claim's arithmetic taken literally over the
rationals: perceptual brightness `0.299r + 0.587g + 0.114b` classified
against 85/170, the dominant-channel decision tree with secondary-channel
ratio thresholds `0.5` / `0.3` against the dominant channel, dominant
channel 0 giving black and all-equal channels gray. -/
def specColorDescription (r g b : Int) : String :=
  let brightness : ℚ := 0.299 * r + 0.587 * g + 0.114 * b
  let bterm := if brightness < 85 then "dark" else if 170 < brightness then "light" else ""
  if max r (max g b) = 0 then "black"
  else if r = g ∧ g = b then (if bterm ≠ "" then bterm ++ " gray" else "gray")
  else
    let hue :=
      if r ≥ g ∧ r ≥ b then
        (if g > b then (if (r : ℚ) * 0.5 < g then "orange" else "red")
         else (if (r : ℚ) * 0.3 < b then "pink" else "red"))
      else if g ≥ r ∧ g ≥ b then
        (if r > b then (if (g : ℚ) * 0.5 < r then "yellow-green" else "green")
         else (if (g : ℚ) * 0.3 < b then "teal" else "green"))
      else
        (if r > g then (if (b : ℚ) * 0.3 < r then "purple" else "blue")
         else (if (b : ℚ) * 0.3 < g then "cyan" else "blue"))
    if bterm = "" then hue else bterm ++ " " ++ hue

/-- Spec §4.4, resolution order: the fixed table (case-insensitive), then
hex decoding for 7-character `#`-strings whose two-character slices parse
as Python base-16 integers, else the input unchanged. -/
def specDescribeColor (value : String) : String :=
  match lookupTbl COLOR_NAMES (lowerStr value) with
  | some n => n
  | none =>
    if strStarts value "#" && value.length = 7 then
      hexBranch specColorDescription value
    else value

/-! ## CSS-fixpoint predicate (for the amended idempotence claim) -/

mutual

/-- Every `style` element in the tree whose text participates in CSS
sanitization already has `sanitizeCss`-fixed text. -/
def cssFixAll : XElem → Bool
  | .mk tag _ text cs =>
    (if lowerStr (stripNs tag) = "style" ∧ text ≠ "" then sanitizeCss text == text
     else true) && cssFixAllList cs

def cssFixAllList : List XElem → Bool
  | [] => true
  | c :: cs => cssFixAll c && cssFixAllList cs

end

/-! ## Concrete example data (used by counterexamples and witnesses) -/

/-- The parsed tree of `<script>alert(1)</script>`. -/
def exScriptRoot : XElem := XElem.mk "script" [] "alert(1)" []

def xmlScriptInput : String := "<?xml version=\"1.0\"?><script>alert(1)</script>"

/-- A stand-in for `ET.fromstring` defined on the one input a witness
needs. -/
def cexParse : String → Except String XElem :=
  fun s => if s = xmlScriptInput then .ok exScriptRoot else .error "unused"

/-- A stand-in for `ET.tostring` on that tree. -/
def cexSer : XElem → String := fun _ => "<script>alert(1)</script>"

/-- `<svg><style>expressionexpression()()</style></svg>` as a tree: its
sanitized form is itself a sanitizer output on which sanitization is not
idempotent. -/
def styleDoc : XElem :=
  XElem.mk "svg" [] "" [XElem.mk "style" [] "expressionexpression()()" []]

/-- The parsed tree of `<svg><rect/></svg>`. -/
def svgRectTree : XElem := XElem.mk "svg" [] "" [XElem.mk "rect" [] "" []]

/-- A stand-in parser for the validator's concrete example. -/
def rectParse : String → Except String XElem :=
  fun s => if s = "<svg><rect/></svg>" then .ok svgRectTree else .error "unused"

/-! # Lemmas and theorems -/

theorem sanitizeChildren_eq (cs : List XElem) :
    sanitizeChildren cs = (cs.filter childAllowed).map sanitizeElement := by
  induction cs with
  | nil => simp [sanitizeChildren]
  | cons c cs ih =>
    rw [sanitizeChildren, List.filter_cons]
    by_cases h : childAllowed c <;> simp [h, ih]

theorem tag_sanitizeElement (t : XElem) : (sanitizeElement t).tag = t.tag := by
  cases t; rw [sanitizeElement]; rfl

theorem childAllowed_sanitizeElement (t : XElem) :
    childAllowed (sanitizeElement t) = childAllowed t := by
  rw [childAllowed, childAllowed, tag_sanitizeElement]

theorem attribs_sanitizeElement (t : XElem) :
    (sanitizeElement t).attribs = t.attribs.filter keepAttr := by
  cases t; rw [sanitizeElement]; rfl

theorem children_sanitizeElement (t : XElem) :
    (sanitizeElement t).children = (t.children.filter childAllowed).map sanitizeElement := by
  cases t; rw [sanitizeElement, XElem.children, XElem.children, sanitizeChildren_eq]

theorem text_sanitizeElement_of_not_style (t : XElem)
    (h : lowerStr (stripNs t.tag) ≠ "style") : (sanitizeElement t).text = t.text := by
  cases t with
  | mk tag attrs text cs =>
    rw [sanitizeElement, XElem.text, XElem.text]
    rw [if_neg]
    rintro ⟨h1, -⟩
    exact h h1

theorem getPath_nil (t : XElem) : getPath t [] = some t := rfl

theorem getPath_cons (t : XElem) (i : Nat) (p : List Nat) :
    getPath t (i :: p) =
      match t.children.get? i with
      | some c => getPath c p
      | none => none := rfl

/-- Where do the elements of a sanitized tree come from?  Every element at
path `p` of the output is the sanitization of an element at some
equally-deep path `q` of the input all of whose non-root prefixes hit
allow-listed elements (so nothing inside a removed subtree survives). -/
theorem sanitize_getPath_origin : ∀ (p : List Nat) (t e : XElem),
    getPath (sanitizeElement t) p = some e →
    ∃ q e₀, q.length = p.length ∧ getPath t q = some e₀ ∧
      e = sanitizeElement e₀ ∧ pathOk t q := by
  intro p
  induction p with
  | nil =>
    intro t e h
    rw [getPath_nil, Option.some_inj] at h
    refine ⟨[], t, rfl, getPath_nil t, h.symm, ?_⟩
    intro q' e' hne hpre _
    exact absurd (List.prefix_nil.mp hpre) hne
  | cons i p ih =>
    intro t e h
    rw [getPath_cons, children_sanitizeElement, List.get?_map] at h
    cases hgi : (t.children.filter childAllowed).get? i with
    | none => rw [hgi] at h; exact absurd h (by simp)
    | some c =>
      rw [hgi] at h
      simp only [Option.map_some'] at h
      obtain ⟨q', e₀, hlen, hq', he, hok⟩ := ih c e h
      have hcmem : c ∈ t.children.filter childAllowed := List.get?_mem hgi
      have hcall : childAllowed c = true := (List.mem_filter.mp hcmem).2
      obtain ⟨j, hj⟩ := List.get?_of_mem (List.mem_of_mem_filter hcmem)
      refine ⟨j :: q', e₀, by simp [hlen], ?_, he, ?_⟩
      · rw [getPath_cons, hj]; exact hq'
      · intro q'' e'' hne hpre hget
        cases q'' with
        | nil => exact absurd rfl hne
        | cons a r =>
          obtain ⟨rfl, hr⟩ := List.cons_prefix_cons.mp hpre
          rw [getPath_cons, hj] at hget
          have hget2 : getPath c r = some e'' := hget
          cases r with
          | nil =>
            rw [getPath_nil, Option.some_inj] at hget2
            rw [← hget2]; exact hcall
          | cons b r' =>
            exact hok (b :: r') e'' (by simp) hr hget2

/-- C1 (amended): below the root, sanitization is complete — every element
at a nonempty path of `sanitize` output has an allow-listed (namespace-
stripped, lower-cased) tag, and it is the sanitization of an input element
reached by a nonempty path passing only through allow-listed elements, so
no element of a removed subtree (whatever its own name) survives.  The
root itself is exempt (see the counterexample and C2). -/
theorem sanitized_no_disallowed_below_root (t : XElem) (p : List Nat) (e : XElem)
    (hget : getPath (sanitizeElement t) p = some e) (hne : p ≠ []) :
    childAllowed e = true ∧
    ∃ q e₀, q ≠ [] ∧ getPath t q = some e₀ ∧ e = sanitizeElement e₀ ∧ pathOk t q := by
  obtain ⟨q, e₀, hlen, hq, he, hok⟩ := sanitize_getPath_origin p t e hget
  have hqne : q ≠ [] := by
    intro h0
    rw [h0] at hlen
    exact hne (List.eq_nil_of_length_eq_zero hlen.symm)
  have hallowed : childAllowed e₀ = true := hok q e₀ hqne (List.prefix_refl q) hq
  subst he
  rw [childAllowed_sanitizeElement]
  exact ⟨hallowed, q, e₀, hqne, hq, rfl, hok⟩

theorem sanitized_no_disallowed_below_root_witness :
    childAllowed (XElem.mk "g" [] "" []) = true ∧
    ∃ q e₀, q ≠ [] ∧ getPath (XElem.mk "svg" [] "" [XElem.mk "g" [] "" []]) q = some e₀ ∧
      XElem.mk "g" [] "" [] = sanitizeElement e₀ ∧
      pathOk (XElem.mk "svg" [] "" [XElem.mk "g" [] "" []]) q :=
  sanitized_no_disallowed_below_root (XElem.mk "svg" [] "" [XElem.mk "g" [] "" []])
    [0] (XElem.mk "g" [] "" []) rfl (by simp)

/-- C1 counterexample: `_sanitize_element` never tests the root's own tag,
so for the accepted input `<?xml version="1.0"?><script>alert(1)</script>`
the parsed tree is a bare `script` root which survives sanitization
unchanged — an element whose name is not in the allow-list appears in the
output (at the root). -/
theorem script_root_survives_sanitization :
    sanitizeElement exScriptRoot = exScriptRoot ∧
    childAllowed exScriptRoot = false ∧
    sanitize_svg cexParse cexSer xmlScriptInput =
      .ok ("<?xml version=\"1.0\" encoding=\"UTF-8\"?>\n<script>alert(1)</script>") :=
  ⟨rfl, by decide, rfl⟩

/-- C3: after sanitization no element (the root included) carries an
attribute with a deny-listed (namespace-stripped, lower-cased) name or
with a value containing a dangerous pattern, and surviving attributes are
a sublist of the original element's attributes — whole-attribute deletion,
never a rewritten value. -/
theorem sanitized_attributes_safe (t : XElem) (p : List Nat) (e : XElem)
    (hget : getPath (sanitizeElement t) p = some e) :
    (∀ a v, (a, v) ∈ e.attribs → dangerousAttrName a = false ∧ dangerousValue v = false) ∧
    ∃ e₀, e = sanitizeElement e₀ ∧ e.attribs.Sublist e₀.attribs := by
  obtain ⟨q, e₀, -, -, he, -⟩ := sanitize_getPath_origin p t e hget
  subst he
  constructor
  · intro a v hmem
    rw [attribs_sanitizeElement] at hmem
    have hk := (List.mem_filter.mp hmem).2
    rw [keepAttr, Bool.and_eq_true, Bool.not_eq_true', Bool.not_eq_true'] at hk
    exact hk
  · exact ⟨e₀, rfl, by rw [attribs_sanitizeElement]; exact List.filter_sublist _⟩

theorem sanitized_attributes_safe_witness :
    (∀ a v, (a, v) ∈ (XElem.mk "svg" [("fill", "red")] "" []).attribs →
      dangerousAttrName a = false ∧ dangerousValue v = false) ∧
    ∃ e₀, XElem.mk "svg" [("fill", "red")] "" [] = sanitizeElement e₀ ∧
      (XElem.mk "svg" [("fill", "red")] "" []).attribs.Sublist e₀.attribs :=
  sanitized_attributes_safe
    (XElem.mk "svg" [("onload", "alert(1)"), ("fill", "red")] "" []) []
    (XElem.mk "svg" [("fill", "red")] "" []) rfl

/-- C2: `sanitize_svg` never tests the root element's own tag and never
removes the root.  For any input whose stripped content starts with
`<svg` or an XML prolog and whose (normalized) content parses to a root
`t`, the call succeeds and returns the serialization of `sanitizeElement
t` — whose tag is exactly `t`'s tag, whatever it is, and whose text is
preserved whenever the root is not a `style` element. -/
theorem sanitize_svg_retains_root (parse : String → Except String XElem)
    (ser : XElem → String) (c : String) (t : XElem)
    (hshape : strStarts (pyStrip c) "<svg" = true ∨ strStarts (pyStrip c) "<?xml" = true)
    (hparse : parse (normalize_namespaces (pyStrip c)) = .ok t) :
    sanitize_svg parse ser c =
      .ok ((if strStarts (pyStrip c) "<?xml" then XML_DECL else "") ++
        ser (sanitizeElement t)) ∧
    (sanitizeElement t).tag = t.tag ∧
    (lowerStr (stripNs t.tag) ≠ "style" → (sanitizeElement t).text = t.text) := by
  have hne : ¬(pyStrip c = "") := by
    intro h0
    rcases hshape with h | h <;> rw [h0] at h <;> exact absurd h (by decide)
  refine ⟨?_, tag_sanitizeElement t, text_sanitizeElement_of_not_style t⟩
  have hcond : (!strStarts (pyStrip c) "<svg" && !strStarts (pyStrip c) "<?xml") = false := by
    rcases hshape with h | h <;> rw [h] <;> simp
  simp only [sanitize_svg, if_neg hne, hcond, Bool.false_eq_true, if_false, hparse]
  cases hx : strStarts (pyStrip c) "<?xml" <;> simp [hx]

theorem sanitize_svg_retains_root_witness :
    sanitize_svg cexParse cexSer xmlScriptInput =
      .ok ((if strStarts (pyStrip xmlScriptInput) "<?xml" then XML_DECL else "") ++
        cexSer (sanitizeElement exScriptRoot)) ∧
    (sanitizeElement exScriptRoot).tag = exScriptRoot.tag ∧
    (lowerStr (stripNs exScriptRoot.tag) ≠ "style" →
      (sanitizeElement exScriptRoot).text = exScriptRoot.text) :=
  sanitize_svg_retains_root cexParse cexSer xmlScriptInput exScriptRoot
    (Or.inr (by decide)) rfl

/-- C5: `sanitize_svg` raises `SVGSanitizationError` exactly when the
input is empty or blank, or its stripped content starts with neither
`<svg` nor `<?xml`, or the parser rejects the (namespace-normalized)
stripped content; on every other input it returns a string. -/
theorem sanitize_svg_error_iff (parse : String → Except String XElem)
    (ser : XElem → String) (c : String) :
    (∃ msg, sanitize_svg parse ser c = .error msg) ↔
      (pyStrip c = "" ∨
       (strStarts (pyStrip c) "<svg" = false ∧ strStarts (pyStrip c) "<?xml" = false) ∨
       ∃ msg, parse (normalize_namespaces (pyStrip c)) = .error msg) := by
  by_cases h1 : pyStrip c = ""
  · simp [sanitize_svg, h1]
  cases h2 : (!strStarts (pyStrip c) "<svg" && !strStarts (pyStrip c) "<?xml") with
  | true =>
    have h2' := h2
    rw [Bool.and_eq_true, Bool.not_eq_true', Bool.not_eq_true'] at h2'
    simp [sanitize_svg, h1, h2, h2']
  | false =>
    have hsh : ¬(strStarts (pyStrip c) "<svg" = false ∧
        strStarts (pyStrip c) "<?xml" = false) := by
      rintro ⟨ha, hb⟩
      rw [ha, hb] at h2
      exact absurd h2 (by decide)
    cases hp : parse (normalize_namespaces (pyStrip c)) with
    | error e => simp [sanitize_svg, h1, h2, hsh, hp]
    | ok root => simp [sanitize_svg, h1, h2, hsh, hp]

/-- C4: `find_similar_logos` is total (never raises), its response always
has `success = true`; with unconfigured credentials it returns the
degraded empty response with the explanatory error immediately, and when
the store access raises, the exception message is captured into `error`
on a degraded empty response instead of propagating. -/
theorem find_similar_logos_never_raises (cfg : RAGConfig)
    (store : String → Nat → Option ChromaFilter → Except String (List SimilarLogo))
    (req : RAGQueryRequest) :
    (find_similar_logos cfg store req).success = true ∧
    (is_rag_configured cfg = false →
      find_similar_logos cfg store req =
        { success := true, results := [], query_used := none, degraded := true,
          error := some "RAG not configured - ChromaDB credentials missing" }) ∧
    (∀ e, is_rag_configured cfg = true →
      store (queryTextOf req) req.n_results
        (generate_filter_from_config req.logo_type req.theme req.shape) = .error e →
      find_similar_logos cfg store req =
        { success := true, results := [], query_used := none, degraded := true,
          error := some ("RAG query failed: " ++ e) }) := by
  cases hc : is_rag_configured cfg with
  | false =>
    refine ⟨?_, fun _ => ?_, fun e h1 _ => absurd h1 (by decide)⟩ <;>
      simp [find_similar_logos, hc]
  | true =>
    cases hst : store (queryTextOf req) req.n_results
        (generate_filter_from_config req.logo_type req.theme req.shape) with
    | ok results =>
      refine ⟨?_, fun h0 => absurd h0 (by decide), fun e _ h2 => absurd h2 (by simp)⟩
      simp [find_similar_logos, hc, hst]
    | error e' =>
      refine ⟨?_, fun h0 => absurd h0 (by decide), fun e _ h2 => ?_⟩
      · simp [find_similar_logos, hc, hst]
      · injection h2 with h2
        subst h2
        simp [find_similar_logos, hc, hst]

/-- C9: each result of `query_by_text` is scored exactly `1 / (1 + d)`
from its row's distance `d`; on non-negative distances this score is `1`
at `0`, `1/2` at `1`, strictly decreasing, and always in `(0, 1]`.
(The Python floats are modelled as exact rationals.) -/
theorem similarity_score_spec :
    (∀ rows i r, (query_by_text_results rows).get? i = some r →
      ∃ row, rows.get? i = some row ∧ r.score = 1 / (1 + row.2.2)) ∧
    distanceToScore 0 = 1 ∧
    distanceToScore 1 = 1 / 2 ∧
    (∀ d₁ d₂ : ℚ, 0 ≤ d₁ → d₁ < d₂ → distanceToScore d₂ < distanceToScore d₁) ∧
    (∀ d : ℚ, 0 ≤ d → 0 < distanceToScore d ∧ distanceToScore d ≤ 1) := by
  refine ⟨?_, by norm_num [distanceToScore], by norm_num [distanceToScore], ?_, ?_⟩
  · intro rows i r h
    rw [query_by_text_results, List.get?_map] at h
    cases hr : rows.get? i with
    | none => rw [hr] at h; exact absurd h (by simp)
    | some row =>
      rw [hr] at h
      simp only [Option.map_some', Option.some_inj] at h
      exact ⟨row, rfl, by rw [← h]; rfl⟩
  · intro d₁ d₂ h0 hlt
    rw [distanceToScore, distanceToScore, div_lt_div_iff (by linarith) (by linarith)]
    linarith
  · intro d h0
    rw [distanceToScore]
    exact ⟨div_pos one_pos (by linarith), by rw [div_le_one (by linarith)]; linarith⟩

/-- C10: `validate_svg_structure` is total; a parse failure yields
`valid = false`, zero counts and a non-empty error list; a parsed root
whose namespace-stripped tag is not `svg` (case-insensitively) records
that error and stops; otherwise the result is valid with viewbox and
dimension flags read off the root's attributes and the full subtree
element count; `valid = true` exactly when parsing succeeded and the
root-tag check passed — and `<svg><rect/></svg>` validates with
`element_count = 2` and both flags false. -/
theorem validate_svg_structure_spec (parse : String → Except String XElem)
    (svg : String) :
    (∀ e, parse svg = .error e →
      validate_svg_structure parse svg = ⟨false, false, false, 0, ["Parse error: " ++ e]⟩) ∧
    (∀ root, parse svg = .ok root → lowerStr (stripNs root.tag) ≠ "svg" →
      validate_svg_structure parse svg =
        ⟨false, false, false, 0, ["Root element is not <svg>"]⟩) ∧
    (∀ root, parse svg = .ok root → lowerStr (stripNs root.tag) = "svg" →
      validate_svg_structure parse svg =
        ⟨true, hasAttr root "viewBox", hasAttr root "width" && hasAttr root "height",
         countElements root, []⟩) ∧
    ((validate_svg_structure parse svg).valid = true ↔
      ∃ root, parse svg = .ok root ∧ lowerStr (stripNs root.tag) = "svg") ∧
    validate_svg_structure rectParse "<svg><rect/></svg>" =
      ⟨true, false, false, 2, []⟩ := by
  refine ⟨?_, ?_, ?_, ?_, by decide⟩
  · intro e he
    rw [validate_svg_structure, he]
  · intro root hr ht
    rw [validate_svg_structure, hr]
    simp only [ht, if_pos, ne_eq, not_false_eq_true, if_true]
  · intro root hr ht
    rw [validate_svg_structure, hr]
    simp [ht]
  · cases hp : parse svg with
    | error e => simp [validate_svg_structure, hp]
    | ok root =>
      by_cases ht : lowerStr (stripNs root.tag) = "svg" <;>
        simp [validate_svg_structure, hp, ht]

theorem cssFixAllList_mem {cs : List XElem} {c : XElem}
    (h : cssFixAllList cs = true) (hc : c ∈ cs) : cssFixAll c = true := by
  induction cs with
  | nil => cases hc
  | cons d ds ih =>
    rw [cssFixAllList, Bool.and_eq_true] at h
    rcases List.mem_cons.mp hc with rfl | hmem
    · exact h.1
    · exact ih h.2 hmem

/-- C6 (amended): sanitization is idempotent on every document whose
`style` texts are already fixpoints of `_sanitize_css` — in particular on
every document with no non-empty `style` text.  (It is not idempotent in
general: see the counterexample, where CSS sanitization shrinks a style
text again on the second pass.) -/
theorem sanitize_idempotent_of_cssFixAll (t : XElem) (hfix : cssFixAll t = true) :
    sanitizeElement (sanitizeElement t) = sanitizeElement t := by
  induction t using xelemInd with
  | _ tag attrs text cs ih =>
  rw [cssFixAll, Bool.and_eq_true] at hfix
  obtain ⟨hroot, hlist⟩ := hfix
  have hattrs : (attrs.filter keepAttr).filter keepAttr = attrs.filter keepAttr := by
    rw [List.filter_filter]
    exact List.filter_congr (fun a _ => Bool.and_self (keepAttr a))
  have htext :
      (if lowerStr (stripNs tag) = "style" ∧
          (if lowerStr (stripNs tag) = "style" ∧ text ≠ "" then sanitizeCss text else text) ≠ "" then
        sanitizeCss (if lowerStr (stripNs tag) = "style" ∧ text ≠ "" then sanitizeCss text else text)
      else if lowerStr (stripNs tag) = "style" ∧ text ≠ "" then sanitizeCss text else text) =
      (if lowerStr (stripNs tag) = "style" ∧ text ≠ "" then sanitizeCss text else text) := by
    by_cases hsty : lowerStr (stripNs tag) = "style" ∧ text ≠ ""
    · have hcss : sanitizeCss text = text := by
        rw [if_pos hsty] at hroot
        exact eq_of_beq hroot
      rw [if_pos hsty, hcss, if_pos hsty, hcss]
    · simp only [if_neg hsty]
  have hchild : sanitizeChildren (sanitizeChildren cs) = sanitizeChildren cs := by
    rw [sanitizeChildren_eq cs, sanitizeChildren_eq, List.filter_map]
    have hsame : (cs.filter childAllowed).filter (childAllowed ∘ sanitizeElement) =
        cs.filter childAllowed := by
      apply List.filter_eq_self.mpr
      intro c hc
      rw [Function.comp_apply, childAllowed_sanitizeElement]
      exact (List.mem_filter.mp hc).2
    rw [hsame, List.map_map]
    apply List.map_congr_left
    intro c hc
    exact ih c (List.mem_of_mem_filter hc) (cssFixAllList_mem hlist (List.mem_of_mem_filter hc))
  rw [sanitizeElement, sanitizeElement, hattrs, htext, hchild]

theorem sanitize_idempotent_of_cssFixAll_witness :
    sanitizeElement (sanitizeElement svgRectTree) = sanitizeElement svgRectTree :=
  sanitize_idempotent_of_cssFixAll svgRectTree (by decide)

/-- C6 counterexample: the document `sanitizeElement styleDoc` — itself a
sanitizer output, the sanitization of
`<svg><style>expressionexpression()()</style></svg>` — has style text
`"expression()"`, and sanitizing it again yields style text `""`: the two
documents differ in non-whitespace text content, so sanitization is not
idempotent.  (Removing the CSS `expression(...)` occurrence exposed a new
one, which only the second pass removes.) -/
theorem sanitize_not_idempotent_on_style :
    (sanitizeElement styleDoc).children.map XElem.text = ["expression()"] ∧
    (sanitizeElement (sanitizeElement styleDoc)).children.map XElem.text = [""] := by
  exact ⟨by decide, by decide⟩

theorem appendDescription_eq (d : Option String) (parts : List String) :
    appendDescription d parts = parts ++ (if optTruthy d then [d.getD ""] else []) := by
  cases d with
  | none => simp [appendDescription, optTruthy]
  | some s => by_cases h : s = "" <;> simp [appendDescription, optTruthy, h]

theorem appendLogoType_eq (lt : Option String) (parts : List String) :
    appendLogoType lt parts = parts ++
      (if optTruthy lt then
        [match lookupTbl TYPE_DESCRIPTIONS (lt.getD "") with
         | some d => d
         | none => lt.getD "" ++ " style logo"]
      else []) := by
  cases lt with
  | none => simp [appendLogoType, optTruthy]
  | some s =>
    by_cases h : s = ""
    · simp [appendLogoType, optTruthy, h]
    · cases hl : lookupTbl TYPE_DESCRIPTIONS s <;>
        simp [appendLogoType, optTruthy, h, hl]

theorem appendTheme_eq (th : Option String) (parts : List String) :
    appendTheme th parts = parts ++
      (if optTruthy th then
        [match lookupTbl THEME_DESCRIPTIONS (th.getD "") with
         | some d => d
         | none => th.getD "" ++ " aesthetic"]
      else []) := by
  cases th with
  | none => simp [appendTheme, optTruthy]
  | some s =>
    by_cases h : s = ""
    · simp [appendTheme, optTruthy, h]
    · cases hl : lookupTbl THEME_DESCRIPTIONS s <;>
        simp [appendTheme, optTruthy, h, hl]

theorem appendShape_eq (sh : Option String) (parts : List String) :
    appendShape sh parts = parts ++
      (if optTruthy sh then
        [match lookupTbl SHAPE_DESCRIPTIONS (sh.getD "") with
         | some d => d
         | none => sh.getD "" ++ " shape"]
      else []) := by
  cases sh with
  | none => simp [appendShape, optTruthy]
  | some s =>
    by_cases h : s = ""
    · simp [appendShape, optTruthy, h]
    · cases hl : lookupTbl SHAPE_DESCRIPTIONS s <;>
        simp [appendShape, optTruthy, h, hl]

theorem colorsList_eq (pc ac : Option String) :
    colorsList pc ac =
      (if optTruthy pc then ["primary color " ++ describe_color (pc.getD "")] else []) ++
      (if optTruthy ac then ["accent color " ++ describe_color (ac.getD "")] else []) := by
  cases pc <;> cases ac <;>
    simp only [colorsList, optTruthy, Option.getD] <;>
    split_ifs <;> simp_all

theorem appendColors_eq (pc ac : Option String) (parts : List String) :
    appendColors pc ac parts = parts ++
      (if colorsList pc ac ≠ [] then [joinSep ", " (colorsList pc ac)] else []) := by
  rw [appendColors]
  split_ifs <;> simp

theorem appendText_eq (tx lt : Option String) (parts : List String) :
    appendText tx lt parts = parts ++
      (if optTruthy tx ∧ (lt = some "wordmark" ∨ lt = some "lettermark" ∨
          lt = some "combination") then
        ["featuring text '" ++ tx.getD "" ++ "'"]
      else []) := by
  have hbool : (optTruthy tx &&
      (lt == some "wordmark" || lt == some "lettermark" || lt == some "combination")) = true ↔
      (optTruthy tx = true ∧ (lt = some "wordmark" ∨ lt = some "lettermark" ∨
        lt = some "combination")) := by
    rw [Bool.and_eq_true, Bool.or_eq_true, Bool.or_eq_true, beq_iff_eq, beq_iff_eq,
      beq_iff_eq, or_assoc]
  by_cases h : optTruthy tx = true ∧ (lt = some "wordmark" ∨ lt = some "lettermark" ∨
      lt = some "combination")
  · rw [appendText, if_pos (hbool.mpr h), if_pos h]
  · rw [appendText, if_neg (fun hb => h (hbool.mp hb)), if_neg h, List.append_nil]

theorem appendIndustry_eq (ind : Option String) (parts : List String) :
    appendIndustry ind parts = parts ++
      (if optTruthy ind then ["suitable for " ++ ind.getD "" ++ " industry"] else []) := by
  cases ind with
  | none => simp [appendIndustry, optTruthy]
  | some s => by_cases h : s = "" <;> simp [appendIndustry, optTruthy, h]

theorem joinParts_eq_specJoin (l : List String) : joinParts l = specJoin l := by
  by_cases h : l = [] <;> simp [joinParts, specJoin, h]

/-- C7: `config_to_query` is a pure function that assembles exactly the
spec's ordered phrase list — description, logo type, theme, shape, the
single colors phrase, the conditional text phrase, industry — and applies
exactly the spec's joining rule (`"professional logo design"` fallback,
`" with "` among the first three phrases, the remainder appended with
`". "`). -/
theorem config_to_query_follows_spec (lt th sh pc ac tx d ind : Option String) :
    config_to_query lt th sh pc ac tx d ind =
      specJoin (specPhrases lt th sh pc ac tx d ind) := by
  rw [config_to_query, appendIndustry_eq, appendText_eq, appendColors_eq,
    appendShape_eq, appendTheme_eq, appendLogoType_eq, appendDescription_eq,
    joinParts_eq_specJoin, specPhrases, colorsList_eq]
  simp [List.append_assoc]

theorem spec_dark_iff (r g b : Int) :
    ((0.299 : ℚ) * r + 0.587 * g + 0.114 * b < 85) ↔
      (299 * r + 587 * g + 114 * b < 85000) := by
  rw [← @Int.cast_lt ℚ]
  constructor <;> intro h
  · push_cast
    linarith
  · push_cast at h
    linarith

theorem spec_light_iff (r g b : Int) :
    ((170 : ℚ) < 0.299 * r + 0.587 * g + 0.114 * b) ↔
      (170000 < 299 * r + 587 * g + 114 * b) := by
  rw [← @Int.cast_lt ℚ]
  constructor <;> intro h
  · push_cast
    linarith
  · push_cast at h
    linarith

theorem ratio_half_iff (x y : Int) : ((x : ℚ) * 0.5 < y) ↔ (x < 2 * y) := by
  rw [← @Int.cast_lt ℚ]
  constructor <;> intro h
  · push_cast
    linarith
  · push_cast at h
    linarith

theorem ratio_threeTenths_iff (x y : Int) : ((x : ℚ) * 0.3 < y) ↔ (3 * x < 10 * y) := by
  rw [← @Int.cast_lt ℚ]
  constructor <;> intro h
  · push_cast
    linarith
  · push_cast at h
    linarith

/-- The spec's rational-arithmetic decision tree computes exactly what the
code's (float-exact) integer comparisons compute. -/
theorem specColorDescription_eq (r g b : Int) :
    specColorDescription r g b = hexDescription r g b := by
  simp only [specColorDescription, hexDescription, gt_iff_lt, spec_dark_iff,
    spec_light_iff, ratio_half_iff, ratio_threeTenths_iff]

theorem hexBranch_congr (f g : Int → Int → Int → String)
    (h : ∀ r gg b, f r gg b = g r gg b) (v : String) :
    hexBranch f v = hexBranch g v := by
  unfold hexBranch
  split
  · split
    · apply h
    · rfl
  · rfl

/-- C8 (amended): `_describe_color` resolves exactly in the spec's order —
case-insensitive table hit first (so `"#0f172a"` gives `"dark navy"`);
then, for 7-character `#`-strings whose two-character slices all parse
under Python `int(·, 16)` (two hex digits, or one hex digit with a
whitespace pad or a sign), the brightness/dominant-channel decision tree
with the spec's exact thresholds (85/170 brightness, 0.5/0.3 secondary-
channel ratios); else the input unchanged. -/
theorem describe_color_follows_spec :
    (∀ s, describe_color s = specDescribeColor s) ∧
    describe_color "#0f172a" = "dark navy" := by
  refine ⟨?_, by decide⟩
  intro s
  rw [describe_color, specDescribeColor]
  cases lookupTbl COLOR_NAMES (lowerStr s) with
  | some n => rfl
  | none =>
    by_cases hg : (strStarts s "#" && s.length = 7) = true
    · show (if strStarts s "#" && s.length = 7 then hex_to_description s else s) = _
      rw [if_pos hg, if_pos hg, hex_to_description]
      exact hexBranch_congr hexDescription specColorDescription
        (fun r g b => (specColorDescription_eq r g b).symm) s
    · show (if strStarts s "#" && s.length = 7 then hex_to_description s else s) = _
      rw [if_neg hg, if_neg hg]

/-- C8 counterexample: `"#+1+2+3"` is not of `#RRGGBB` syntax, yet
`_describe_color` does not return it unchanged: Python `int("+1", 16)`
accepts the sign, so the string decodes to channels `(1, 2, 3)` and is
described as `"dark cyan"`. -/
theorem describe_color_changes_non_rrggbb :
    describe_color "#+1+2+3" = "dark cyan" ∧ "#+1+2+3" ≠ "dark cyan" := by
  exact ⟨by decide, by decide⟩
